import Mathlib

/-!
Shallow embedding of the Agentic E-Commerce Orchestrator workflow core
(state entity, router, gate nodes, executor wiring) and verification of
its specified properties.

Sources embedded:
- src/agent/state.py      (AgentState, FraudSignals, enums)
- src/agent/router.py     (route_next_step)
- src/nodes/verify_identity.py
- src/nodes/red_flag_checker.py
- src/nodes/risk_scoring.py
- src/nodes/human_review.py
- src/nodes/draft_response.py
- src/nodes/retrieve_data.py (state-visible part; external lookups abstracted)
- src/agent.py            (graph wiring and run_agent)

Modelling conventions:
- Python floats are embedded as rationals (all constants in the source are
  decimal literals; the claims are about the arithmetic, not rounding).
- The pydantic status field is Optional and, because assignment is not
  validated, holds arbitrary strings at runtime (the nodes assign both
  AgentStatus enum members, which are str-enums equal to their names, and
  free-text strings such as "RED_FLAG_DETECTED"); it is embedded as
  Option String.
- Optional / falsy Python values are embedded as Option with explicit
  blank / truthy helpers mirroring Python truthiness for strings.
- Attributes that exist only through pydantic extra="allow"
  (human_decision, trust_score, draft_response) are Option fields where
  none means the attribute is absent; reading an absent extra attribute
  raises AttributeError in Python, which fallible readers model in Except.
-/

/-- Python truthiness test for an optional string: None and "" are falsy. -/
def optBlank (o : Option String) : Bool :=
  match o with
  | none => true
  | some s => s.isEmpty

/-- Python truthiness for an optional string (non-None and non-empty). -/
def optTruthy (o : Option String) : Bool := !(optBlank o)

/-- Decides whether needle is a leading segment of hay (over char lists). -/
def leadSeg : List Char → List Char → Bool
  | [], _ => true
  | _ :: _, [] => false
  | a :: as, b :: bs => a == b && leadSeg as bs

/-- Decides list containment of a contiguous segment, as Python substring
tests do (the empty needle is contained everywhere). -/
def segIn (need : List Char) : List Char → Bool
  | [] => leadSeg need []
  | b :: bs => leadSeg need (b :: bs) || segIn need bs

/-- Python membership test keyword in text over strings. -/
def strHasSub (hay need : String) : Bool := segIn need.data hay.data

/-- FraudSignals pydantic model (src/agent/state.py).  red_flags is declared
List[RiskFlag] but assignment is unvalidated and the nodes store raw strings,
so it is embedded as List String. -/
structure FraudSignals where
  refund_count : Nat
  address_drift_miles : ℚ
  red_flags : List String
  trust_score : Option ℚ
  requires_human_review : Bool
  summary : String
  deriving DecidableEq, Repr

/-- DraftResponse pydantic model (src/agent/state.py); declared but never
constructed by any node in the repository. -/
structure DraftResponse where
  channel : String
  subject : Option String
  body : String
  internal_notes : Option String
  deriving DecidableEq, Repr

/-- The plain dict written by draft_response_node to the extra attribute
state.draft_response (src/nodes/draft_response.py lines 40-49). -/
structure DraftDict where
  subject : String
  body : String
  deriving DecidableEq, Repr

/-- Session metadata keys actually read by the code: user_id and email in
verify_identity_node, refund_count and address_drift_miles (with default 0)
in run_agent.  Dict lookups return Option. -/
structure SessionMeta where
  user_id : Option String
  email : Option String
  refund_count : Option Nat
  address_drift_miles : Option ℚ
  deriving DecidableEq, Repr

/-- AgentState (src/agent/state.py, class AgentState).  intent is a str-enum,
embedded as its string value.  human_decision, trust_score and draft_response
are not declared fields; they exist only through extra="allow" and are read
with getattr default None (human_decision) or a raw attribute access that
raises when absent (trust_score); none here means the attribute is absent.
retrieved is abstracted to whether the RetrievalOutputs record was populated
(its contents come from external collaborators, out of the verified core). -/
structure AgentState where
  user_input : String
  session_metadata : SessionMeta
  intent : String
  user_id : Option String
  order_id : Option String
  is_verified : Bool
  contains_pii : Bool
  status : Option String
  refund_count : Nat
  address_drift_miles : ℚ
  red_flags : List String
  requires_human_review : Bool
  fraud : Option FraudSignals
  retrieved : Bool
  human_notes : Option String
  draft : Option DraftResponse
  human_decision : Option String
  trust_score : Option ℚ
  draft_response : Option DraftDict
  deriving DecidableEq, Repr

/-- Environment configuration read with os.getenv: the trusted identity
reference USER_ID / USER_EMAIL (verify_identity.py, agent.py, retrieve_data.py)
and the two red-flag thresholds, already int-parsed
(red_flag_checker.py defaults 3 and 300). -/
structure Env where
  trusted_user_id : Option String
  trusted_user_email : Option String
  max_refunds : Int
  max_drift_miles : Int
  deriving DecidableEq, Repr

/-- Keyword-based intent classification (verify_identity.py lines 16-22 and
56-62): state.intent is reset to other, then the keyword table is scanned in
insertion order and the first keyword contained in the lowercased input wins. -/
def classifyIntent (input : String) : String :=
  let lower := input.toLower
  if strHasSub lower "refund" then "refund"
  else if strHasSub lower "return" then "return"
  else if strHasSub lower "shipping" then "shipping_issue"
  else if strHasSub lower "billing" then "billing_dispute"
  else if strHasSub lower "account takeover" then "account_takeover"
  else "other"

/-- verify_identity_node (src/nodes/verify_identity.py).  Fails closed when
either trusted credential is unset or empty; otherwise compares the
session-provided user_id and email against the trusted pair by exact match,
and only on success classifies intent and sets the PII heuristic. -/
def verify_identity_node (env : Env) (s : AgentState) : AgentState :=
  if optBlank env.trusted_user_id || optBlank env.trusted_user_email then
    { s with is_verified := false, status := some "IDENTITY_FAILED" }
  else
    let tu := env.trusted_user_id.getD ""
    let te := env.trusted_user_email.getD ""
    if s.session_metadata.user_id == some tu && s.session_metadata.email == some te then
      { s with
        is_verified := true,
        status := some "IDENTITY_VERIFIED",
        intent := classifyIntent s.user_input,
        contains_pii := optTruthy s.session_metadata.user_id ||
          optTruthy s.session_metadata.email }
    else
      { s with is_verified := false, status := some "IDENTITY_FAILED" }

/-- route_next_step (src/agent/router.py).  Priority: identity gate, then
human review, then post-review statuses, then continue.  The status
comparisons are string comparisons (the str-enum members equal their names);
an Optional status of None never equals a string. -/
def route_next_step (s : AgentState) : String :=
  if !s.is_verified then "blocked"
  else if s.requires_human_review then "human_review"
  else if s.status == some "HUMAN_APPROVED" then "approved"
  else if s.status == some "HUMAN_REJECTED" then "rejected"
  else "continue"

/-- red_flag_checker_node (src/nodes/red_flag_checker.py).  Appends a flag
string and sets requires_human_review for each threshold exceeded
(state.refund_count or 0 and state.address_drift_miles or 0 coincide with
the raw fields since the falsy value is 0), then sets the free-text status
RED_FLAG_DETECTED or NO_RED_FLAGS from the resulting red_flags list. -/
def red_flag_checker_node (env : Env) (s : AgentState) : AgentState :=
  let s1 :=
    if (s.refund_count : Int) > env.max_refunds then
      { s with red_flags := s.red_flags ++ ["REFUND_VELOCITY_EXCEEDED"],
               requires_human_review := true }
    else s
  let s2 :=
    if s.address_drift_miles > (env.max_drift_miles : ℚ) then
      { s1 with red_flags := s1.red_flags ++ ["ADDRESS_DISTANCE_DISCREPANCY"],
                requires_human_review := true }
    else s1
  if s2.red_flags.isEmpty then
    { s2 with status := some "NO_RED_FLAGS" }
  else
    { s2 with status := some "RED_FLAG_DETECTED" }

/-- Audit summary written by risk_scoring_node (lines 70-74); the Python
f-string 2-decimal formatting of the score is abstracted to reprStr. -/
def riskSummary (rc : Nat) (drift trust : ℚ) : String :=
  "Refunds: " ++ toString rc ++ ", Address drift: " ++ reprStr drift ++
    " miles, Trust score: " ++ reprStr trust

/-- risk_scoring_node (src/nodes/risk_scoring.py).  Reads the fraud
composite's primitives (0 when the composite is absent), computes the capped
penalty score clamped to [0,1], stores it (creating the composite with empty
red_flags when absent), then derives requires_human_review and status from
the score threshold 0.5 and the composite's red_flags, and rewrites the
composite's summary. -/
def risk_scoring_node (s : AgentState) : AgentState :=
  let refund_count : Nat :=
    match s.fraud with
    | some f => f.refund_count
    | none => 0
  let address_drift : ℚ :=
    match s.fraud with
    | some f => f.address_drift_miles
    | none => 0
  let t1 : ℚ := 1
  let t2 : ℚ :=
    if refund_count > 0 then t1 - min (3/10) ((5/100) * (refund_count : ℚ)) else t1
  let t3 : ℚ :=
    if address_drift > 0 then t2 - min (3/10) (address_drift / 1000) else t2
  let trust : ℚ := max 0 (min 1 t3)
  let fraud1 : FraudSignals :=
    match s.fraud with
    | some f => { f with trust_score := some trust }
    | none =>
      { refund_count := refund_count,
        address_drift_miles := address_drift,
        red_flags := [],
        trust_score := some trust,
        requires_human_review := false,
        summary := "Auto-generated fraud summary for trust scoring" }
  let review : Bool := decide (trust < 1/2) || !fraud1.red_flags.isEmpty
  let fraud2 : FraudSignals :=
    { fraud1 with summary := riskSummary refund_count address_drift trust }
  { s with
    fraud := some fraud2,
    requires_human_review := review,
    status := some (if review then "HUMAN_REVIEW_REQUIRED" else "RISK_SCORED") }

/-- human_review_node (src/nodes/human_review.py).  First sets the entry
state (HUMAN_REVIEW_REQUIRED, review required), then keys on the
human_decision extra attribute read with getattr default None; the
comparisons are against the str-enum values, so only the four recognized
strings transition; anything else leaves the entry state (a pause). -/
def human_review_node (s : AgentState) : AgentState :=
  let s0 := { s with status := some "HUMAN_REVIEW_REQUIRED",
                     requires_human_review := true }
  match s.human_decision with
  | none => s0
  | some d =>
    if d == "approve" then
      { s0 with status := some "HUMAN_APPROVED", requires_human_review := false }
    else if d == "reject" then
      { s0 with status := some "HUMAN_REJECTED" }
    else if d == "edit" then
      { s0 with status := some "HUMAN_APPROVED", requires_human_review := false }
    else if d == "needs_more_info" then
      { s0 with requires_human_review := true,
                status := some "HUMAN_REVIEW_REQUIRED" }
    else s0

/-- draft_response_node (src/nodes/draft_response.py).  Reads the undeclared
attribute state.trust_score directly; under pydantic extra="allow" an absent
extra attribute raises AttributeError, modelled as Except.error.  On success
it writes the draft_response extra dict and the free-text status
RESPONSE_DRAFTED; the declared draft field is never written. -/
def draft_response_node (s : AgentState) : Except String AgentState :=
  match s.trust_score with
  | none => Except.error "AttributeError: trust_score"
  | some ts =>
    let part1 : List String :=
      if ts != 0 then ["Trust level assessed as " ++ reprStr ts] else []
    let part2 : List String :=
      if s.red_flags.isEmpty then
        ["No fraud or policy violations detected"]
      else
        ["Red flags reviewed: " ++ String.intercalate ", " s.red_flags]
    let body : String :=
      "Hi,\n\nWe have reviewed your request using our security verification " ++
      "and policy checks.\n\nSummary:\n- " ++
      String.intercalate "\n- " (part1 ++ part2) ++
      "\n\nIf applicable, a support agent will finalize the next steps.\n\n" ++
      "Thank you for using us for your drafting needs."
    Except.ok
      { s with
        draft_response := some { subject := "Regarding Your Recent Request",
                                 body := body },
        status := some "RESPONSE_DRAFTED" }

/-- retrieve_data_node (src/nodes/retrieve_data.py, state-visible behavior).
Requires a truthy user_id from state or the USER_ID environment variable,
raising ValueError otherwise; the Snowflake / Pinecone lookups are external
collaborators, abstracted to populating the retrieved record; status becomes
DATA_RETRIEVED. -/
def retrieve_data_node (env : Env) (s : AgentState) : Except String AgentState :=
  let uid : Option String :=
    if optTruthy s.user_id then s.user_id else env.trusted_user_id
  if optBlank uid then
    Except.error "ValueError: USER_ID must be set in state or .env for data retrieval"
  else
    Except.ok { s with retrieved := true, status := some "DATA_RETRIEVED" }

/-- Initial AgentState built by run_agent (src/agent.py lines 122-148):
lifecycle starts at IDENTITY_REQUIRED, fraud primitives are seeded from the
session metadata with default 0, and the fraud composite is pre-created with
empty red_flags, no trust score and an empty summary. -/
def initial_state (user_input : String) (meta : SessionMeta) : AgentState :=
  let rc : Nat := meta.refund_count.getD 0
  let drift : ℚ := meta.address_drift_miles.getD 0
  { user_input := user_input,
    session_metadata := meta,
    intent := "other",
    user_id := none,
    order_id := none,
    is_verified := false,
    contains_pii := false,
    status := some "IDENTITY_REQUIRED",
    refund_count := rc,
    address_drift_miles := drift,
    red_flags := [],
    requires_human_review := false,
    fraud := some
      { refund_count := rc,
        address_drift_miles := drift,
        red_flags := [],
        trust_score := none,
        requires_human_review := false,
        summary := "" },
    retrieved := false,
    human_notes := none,
    draft := none,
    human_decision := none,
    trust_score := none,
    draft_response := none }

/-- Pydantic field validation for AgentState materialization
(src/agent/state.py field constraints): refund_count is a non-negative
integer (automatic for Nat here), address_drift_miles is non-negative, and
the fraud composite's primitives and trust score respect their bounds.
user_input is a required plain str with no emptiness constraint. -/
def stateValid (s : AgentState) : Bool :=
  decide (0 ≤ s.address_drift_miles) &&
  (match s.fraud with
   | none => true
   | some f =>
     decide (0 ≤ f.address_drift_miles) &&
     (match f.trust_score with
      | none => true
      | some t => decide (0 ≤ t) && decide (t ≤ 1)))

/-- Conditional-edge dispatch after the human_review node
(src/agent.py lines 94-101).  The path map contains only the keys approved
and rejected; LangGraph raises on a routing key missing from the map, which
the router produces for a pause, a rejection kept under review, or
needs_more_info (all of which leave requires_human_review true, so the
router emits human_review). -/
def after_human_review (s : AgentState) : Except String AgentState :=
  let k := route_next_step s
  if k == "approved" then draft_response_node s
  else if k == "rejected" then Except.ok s
  else Except.error ("unmapped route from human_review: " ++ k)

/-- Conditional-edge dispatch after the risk_scoring node
(src/agent.py lines 84-91), path map keys human_review and continue. -/
def after_risk_scoring (s : AgentState) : Except String AgentState :=
  let k := route_next_step s
  if k == "human_review" then after_human_review (human_review_node s)
  else if k == "continue" then draft_response_node s
  else Except.error ("unmapped route from risk_scoring: " ++ k)

/-- Conditional-edge dispatch after the red_flag_check node
(src/agent.py lines 74-81), path map keys human_review and continue. -/
def after_red_flag_check (s : AgentState) : Except String AgentState :=
  let k := route_next_step s
  if k == "human_review" then after_human_review (human_review_node s)
  else if k == "continue" then after_risk_scoring (risk_scoring_node s)
  else Except.error ("unmapped route from red_flag_check: " ++ k)

/-- Conditional-edge dispatch after the verify_identity node
(src/agent.py lines 61-68), path map keys blocked (to END) and continue
(to retrieve_data, which has an unconditional edge to red_flag_check). -/
def after_verify_identity (env : Env) (s : AgentState) : Except String AgentState :=
  let k := route_next_step s
  if k == "blocked" then Except.ok s
  else if k == "continue" then
    match retrieve_data_node env s with
    | Except.error e => Except.error e
    | Except.ok s2 => after_red_flag_check (red_flag_checker_node env s2)
  else Except.error ("unmapped route from verify_identity: " ++ k)

/-- run_agent (src/agent.py lines 109-154): materialize the initial state
(pydantic validation), then drive the compiled graph from the entry edge
START to verify_identity, re-consulting the router after every gated node. -/
def run_agent (env : Env) (user_input : String) (meta : SessionMeta) :
    Except String AgentState :=
  let s0 := initial_state user_input meta
  if stateValid s0 then
    after_verify_identity env (verify_identity_node env s0)
  else
    Except.error "ValidationError: AgentState"

/-- The trust-score formula as the specification states it (section 4.4):
1.0 minus the two capped penalties, clamped to the unit interval. -/
def spec_trust_score (rc : Nat) (d : ℚ) : ℚ :=
  max 0 (min 1 (1 - min (3/10) ((5/100) * (rc : ℚ)) - min (3/10) (d / 1000)))

/-- Refund-count primitive as the Risk Scorer reads it: from the fraud
composite, defaulting to 0 when the composite is absent
(risk_scoring.py line 28). -/
def fraud_refund_count (s : AgentState) : Nat :=
  match s.fraud with
  | some f => f.refund_count
  | none => 0

/-- Address-drift primitive as the Risk Scorer reads it
(risk_scoring.py line 29). -/
def fraud_drift (s : AgentState) : ℚ :=
  match s.fraud with
  | some f => f.address_drift_miles
  | none => 0

/-! Concrete fixtures for scenario runs and counterexamples. -/

/-- Configured trusted-identity environment with the thresholds at their
defaults (MAX_REFUNDS_PER_MONTH 3, ADDRESS_DRIFT_THRESHOLD_MILES 300). -/
def envDemo : Env :=
  { trusted_user_id := some "u1", trusted_user_email := some "a@b.com",
    max_refunds := 3, max_drift_miles := 300 }

/-- Environment with the trusted user id unset. -/
def envUnset : Env :=
  { trusted_user_id := none, trusted_user_email := some "a@b.com",
    max_refunds := 3, max_drift_miles := 300 }

/-- Session matching the trusted reference, clean fraud primitives. -/
def metaMatch0 : SessionMeta :=
  { user_id := some "u1", email := some "a@b.com",
    refund_count := some 0, address_drift_miles := some 0 }

/-- Session matching the trusted reference with refund_count above the
threshold 3, so the refund-velocity flag fires. -/
def metaMatch5 : SessionMeta :=
  { user_id := some "u1", email := some "a@b.com",
    refund_count := some 5, address_drift_miles := some 0 }

/-- Session whose user id mismatches the trusted reference. -/
def metaMismatch : SessionMeta :=
  { user_id := some "u2", email := some "a@b.com",
    refund_count := some 0, address_drift_miles := some 0 }

/-- A zeroed fraud composite with no red flags recorded in it. -/
def fraudZero : FraudSignals :=
  { refund_count := 0, address_drift_miles := 0, red_flags := [],
    trust_score := none, requires_human_review := false, summary := "" }

/-! Claim C1.  The fail-closed half of the claim holds, but the router half
is false as stated: route_next_step tests only is_verified and never reads
the status field, so a state carrying status IDENTITY_FAILED together with
is_verified true is not blocked. -/

/-- State with status IDENTITY_FAILED but is_verified true (and no review
required), exhibiting that the Router ignores the status field. -/
def c1_state : AgentState :=
  { initial_state "hello" metaMatch0 with
    is_verified := true, status := some "IDENTITY_FAILED" }

/-- Claim C1 counterexample: a state with status == IDENTITY_FAILED on which
the Router does not return blocked (it returns continue), refuting the
claim that the Router blocks every state with status IDENTITY_FAILED
regardless of every other field. -/
theorem c1_counterexample :
    c1_state.status = some "IDENTITY_FAILED" ∧
    route_next_step c1_state = "continue" ∧
    route_next_step c1_state ≠ "blocked" := by
  refine ⟨rfl, rfl, ?_⟩
  decide

/-- Claim C1 (amended): identity gating is fail-closed end to end through
is_verified: when the trusted-identity reference is absent or unconfigured
the Identity Gate sets is_verified = false and status = IDENTITY_FAILED
without raising; the Router returns blocked for every state with
is_verified == false regardless of every other field; and every state the
Identity Gate emits with status IDENTITY_FAILED has is_verified = false,
hence is blocked. -/
theorem c1_fail_closed_amended :
    (∀ (env : Env) (s : AgentState),
      (optBlank env.trusted_user_id || optBlank env.trusted_user_email) = true →
      (verify_identity_node env s).is_verified = false ∧
      (verify_identity_node env s).status = some "IDENTITY_FAILED" ∧
      route_next_step (verify_identity_node env s) = "blocked") ∧
    (∀ s : AgentState, s.is_verified = false → route_next_step s = "blocked") ∧
    (∀ (env : Env) (s : AgentState),
      (verify_identity_node env s).status = some "IDENTITY_FAILED" →
      (verify_identity_node env s).is_verified = false ∧
      route_next_step (verify_identity_node env s) = "blocked") := by
  refine ⟨?_, ?_, ?_⟩
  · intro env s h
    refine ⟨?_, ?_, ?_⟩ <;> simp [verify_identity_node, h, route_next_step]
  · intro s h
    simp [route_next_step, h]
  · intro env s h
    by_cases hb :
        (optBlank env.trusted_user_id || optBlank env.trusted_user_email) = true
    · constructor
      · simp [verify_identity_node, hb]
      · simp [route_next_step, verify_identity_node, hb]
    · by_cases hm :
          (s.session_metadata.user_id == some (env.trusted_user_id.getD "") &&
            s.session_metadata.email == some (env.trusted_user_email.getD "")) = true
      · exfalso
        simp [verify_identity_node, hb, hm] at h
      · constructor
        · simp [verify_identity_node, hb, hm]
        · simp [route_next_step, verify_identity_node, hb, hm]

/-- Claim C1 witness: the amended theorem applied at the unset-credentials
environment and at a concrete unverified state. -/
theorem c1_witness :
    (verify_identity_node envUnset (initial_state "hi" metaMatch0)).is_verified
        = false ∧
    (verify_identity_node envUnset (initial_state "hi" metaMatch0)).status
        = some "IDENTITY_FAILED" ∧
    route_next_step (verify_identity_node envUnset (initial_state "hi" metaMatch0))
        = "blocked" :=
  c1_fail_closed_amended.1 envUnset (initial_state "hi" metaMatch0) (by decide)

/-! Claim C4.  The Red-Flag Detector in the code appends indicators to the
existing red_flags list instead of replacing it, and sets the free-text
statuses RED_FLAG_DETECTED / NO_RED_FLAGS instead of FLAGS_CHECKED (the
AgentStatus enum declares FLAGS_CHECKED but no node ever assigns it). -/

/-- Verified state after data retrieval with refund_count 5 above the
threshold 3, as produced on the matched-identity scenario path. -/
def c4_state : AgentState :=
  { initial_state "refund" metaMatch5 with
    is_verified := true, status := some "DATA_RETRIEVED", retrieved := true }

/-- Claim C4 evidence: one run of the Red-Flag Detector on c4_state appends
the refund-velocity indicator and a second run on the same primitives
appends it again (accumulation, not replacement, so the second run does not
yield the same set); the status after a detecting run is the free-text
RED_FLAG_DETECTED, not FLAGS_CHECKED, and after a clean run it is
NO_RED_FLAGS, so status is never FLAGS_CHECKED. -/
theorem c4_append_and_freetext_status :
    (red_flag_checker_node envDemo c4_state).red_flags
        = ["REFUND_VELOCITY_EXCEEDED"] ∧
    (red_flag_checker_node envDemo (red_flag_checker_node envDemo c4_state)).red_flags
        = ["REFUND_VELOCITY_EXCEEDED", "REFUND_VELOCITY_EXCEEDED"] ∧
    (red_flag_checker_node envDemo c4_state).status = some "RED_FLAG_DETECTED" ∧
    (red_flag_checker_node envDemo c4_state).status ≠ some "FLAGS_CHECKED" ∧
    (red_flag_checker_node envDemo (initial_state "x" metaMatch0)).status
        = some "NO_RED_FLAGS" := by
  refine ⟨rfl, rfl, rfl, ?_, rfl⟩
  decide

/-! Claims C6 and C10: the Human Review Gate. -/

/-- Claim C6: the Human Review Gate first applies the entry update
(status HUMAN_REVIEW_REQUIRED, requires_human_review true) and then keys on
human_decision: approve and edit yield HUMAN_APPROVED with review cleared,
reject yields HUMAN_REJECTED with review left at the entry value true,
needs_more_info re-pauses at HUMAN_REVIEW_REQUIRED with review true, and an
absent decision leaves exactly the entry state. -/
theorem c6_human_review_decisions :
    (∀ s : AgentState, s.human_decision = some "approve" →
      (human_review_node s).status = some "HUMAN_APPROVED" ∧
      (human_review_node s).requires_human_review = false) ∧
    (∀ s : AgentState, s.human_decision = some "edit" →
      (human_review_node s).status = some "HUMAN_APPROVED" ∧
      (human_review_node s).requires_human_review = false) ∧
    (∀ s : AgentState, s.human_decision = some "reject" →
      (human_review_node s).status = some "HUMAN_REJECTED" ∧
      (human_review_node s).requires_human_review = true) ∧
    (∀ s : AgentState, s.human_decision = some "needs_more_info" →
      (human_review_node s).status = some "HUMAN_REVIEW_REQUIRED" ∧
      (human_review_node s).requires_human_review = true) ∧
    (∀ s : AgentState, s.human_decision = none →
      human_review_node s =
        { s with status := some "HUMAN_REVIEW_REQUIRED",
                 requires_human_review := true }) := by
  refine ⟨?_, ?_, ?_, ?_, ?_⟩ <;> intro s h <;> simp [human_review_node, h]

/-- A paused-review state carrying the given human_decision attribute. -/
def sDec (d : Option String) : AgentState :=
  { initial_state "refund" metaMatch5 with
    is_verified := true, requires_human_review := true,
    status := some "HUMAN_REVIEW_REQUIRED", human_decision := d }

/-- Claim C6 witness: the decision table evaluated at concrete states for
each of the five decision cases. -/
theorem c6_witness :
    (human_review_node (sDec (some "approve"))).status = some "HUMAN_APPROVED" ∧
    (human_review_node (sDec (some "edit"))).requires_human_review = false ∧
    (human_review_node (sDec (some "reject"))).status = some "HUMAN_REJECTED" ∧
    (human_review_node (sDec (some "needs_more_info"))).status
        = some "HUMAN_REVIEW_REQUIRED" ∧
    human_review_node (sDec none) =
      { sDec none with status := some "HUMAN_REVIEW_REQUIRED",
                       requires_human_review := true } :=
  ⟨(c6_human_review_decisions.1 _ rfl).1,
   (c6_human_review_decisions.2.1 _ rfl).2,
   (c6_human_review_decisions.2.2.1 _ rfl).1,
   (c6_human_review_decisions.2.2.2.1 _ rfl).1,
   c6_human_review_decisions.2.2.2.2 _ rfl⟩

/-- Claim C10: for any decision value other than the four recognized
strings, and for an absent decision, the Human Review Gate produces exactly
the paused entry state (status HUMAN_REVIEW_REQUIRED, review required); an
unrecognized value is never an error and the gate applies the identical
state update it applies when no decision is present (the untouched
human_decision attribute itself is the only difference between the two
inputs). -/
theorem c10_unrecognized_decision_pauses :
    (∀ (s : AgentState) (d : String), s.human_decision = some d →
      d ≠ "approve" → d ≠ "reject" → d ≠ "edit" → d ≠ "needs_more_info" →
      human_review_node s =
        { s with status := some "HUMAN_REVIEW_REQUIRED",
                 requires_human_review := true }) ∧
    (∀ s : AgentState, s.human_decision = none →
      human_review_node s =
        { s with status := some "HUMAN_REVIEW_REQUIRED",
                 requires_human_review := true }) := by
  constructor
  · intro s d h h1 h2 h3 h4
    simp [human_review_node, h, h1, h2, h3, h4]
  · intro s h
    simp [human_review_node, h]

/-- Claim C10 witness: the gate evaluated at a concrete unrecognized
decision value and at an absent decision. -/
theorem c10_witness :
    human_review_node (sDec (some "maybe")) =
      { sDec (some "maybe") with status := some "HUMAN_REVIEW_REQUIRED",
                                 requires_human_review := true } ∧
    human_review_node (sDec (some "")) =
      { sDec (some "") with status := some "HUMAN_REVIEW_REQUIRED",
                            requires_human_review := true } :=
  ⟨c10_unrecognized_decision_pauses.1 _ "maybe" rfl (by decide) (by decide)
      (by decide) (by decide),
   c10_unrecognized_decision_pauses.1 _ "" rfl (by decide) (by decide)
      (by decide) (by decide)⟩

/-! Claim C7.  The pause protocol does not work in the code: when the
Human Review Gate leaves requires_human_review true (pause, reject, or
needs_more_info), the router emits the key human_review at the human_review
conditional edge, whose path map contains only approved and rejected, so the
invocation raises instead of returning the paused state; and on an approve
resume the draft node reads the never-populated trust_score extra attribute
(AttributeError) and would in any case set the free-text status
RESPONSE_DRAFTED, never DRAFT_READY. -/

/-- A paused state as the Human Review Gate would leave it on the
refund-velocity scenario (verified, flagged, review required), with an
approve decision attached for the resume leg. -/
def c7_paused (d : Option String) : AgentState :=
  { initial_state "refund" metaMatch5 with
    is_verified := true, retrieved := true,
    status := some "HUMAN_REVIEW_REQUIRED", requires_human_review := true,
    red_flags := ["REFUND_VELOCITY_EXCEEDED"], human_decision := d }

/-- State that does carry a trust_score extra attribute, to evaluate the
draft node past its attribute read. -/
def c7_scored : AgentState :=
  let base := c7_paused none
  { base with
    requires_human_review := false,
    status := some "HUMAN_APPROVED", trust_score := some 1 }

/-- Claim C7 evidence: the scenario run that reaches the Human Review Gate
with no decision raises an unmapped-route error instead of returning a
paused state; resuming a paused state with an approve decision reaches
HUMAN_APPROVED but then fails in the draft node on the absent trust_score
attribute; and when the draft node does run, the status it produces is the
free-text RESPONSE_DRAFTED, not DRAFT_READY. -/
theorem c7_pause_not_returned :
    run_agent envDemo "refund please" metaMatch5
        = Except.error "unmapped route from human_review: human_review" ∧
    (human_review_node (c7_paused (some "approve"))).status
        = some "HUMAN_APPROVED" ∧
    after_human_review (human_review_node (c7_paused (some "approve")))
        = Except.error "AttributeError: trust_score" ∧
    (draft_response_node c7_scored).map AgentState.status
        = Except.ok (some "RESPONSE_DRAFTED") ∧
    (draft_response_node c7_scored).map AgentState.status
        ≠ Except.ok (some "DRAFT_READY") := by
  refine ⟨rfl, rfl, rfl, rfl, ?_⟩
  intro h
  simp [draft_response_node, c7_scored, c7_paused, Except.map] at h

/-! Claim C8.  The blocked path does return a complete, inspectable state
with a terminal status and no draft, but the claim that fraud_signals is
not populated is false: run_agent pre-creates the fraud composite at
initialization, so even an identity-blocked run carries it (zeroed, with no
trust score computed). -/

/-- The identity-mismatch scenario run. -/
def c8_run : Except String AgentState := run_agent envDemo "hello" metaMismatch

/-- Claim C8 counterexample: the identity-mismatch run ends blocked with
status IDENTITY_FAILED and no draft, yet its fraud_signals field is
populated (namely the zero composite created at initialization), refuting the
claim that neither fraud_signals nor draft is populated. -/
theorem c8_counterexample :
    c8_run.map AgentState.status = Except.ok (some "IDENTITY_FAILED") ∧
    c8_run.map AgentState.draft = Except.ok none ∧
    c8_run.map AgentState.fraud = Except.ok (some fraudZero) ∧
    (some fraudZero : Option FraudSignals) ≠ none := by
  refine ⟨rfl, rfl, rfl, ?_⟩
  decide

/-- Claim C8 (amended): with a configured trusted reference and a
mismatching session, the run returns normally (no exception) with the
terminal status IDENTITY_FAILED, the Router answering blocked, no draft and
no draft_response populated, no data retrieved, and the fraud composite
still in its zero-initialized form with no trust score computed. -/
theorem c8_blocked_run_amended (env : Env) (ui : String) (meta : SessionMeta)
    (hb1 : optBlank env.trusted_user_id = false)
    (hb2 : optBlank env.trusted_user_email = false)
    (hm : (meta.user_id == some (env.trusted_user_id.getD "") &&
           meta.email == some (env.trusted_user_email.getD "")) = false)
    (hd : 0 ≤ meta.address_drift_miles.getD 0) :
    ∃ s : AgentState, run_agent env ui meta = Except.ok s ∧
      s.status = some "IDENTITY_FAILED" ∧
      s.is_verified = false ∧
      route_next_step s = "blocked" ∧
      s.draft = none ∧
      s.draft_response = none ∧
      s.retrieved = false ∧
      ∃ f : FraudSignals, s.fraud = some f ∧ f.trust_score = none ∧
        f.red_flags = [] := by
  have hval : stateValid (initial_state ui meta) = true := by
    simp [stateValid, initial_state, hd]
  refine ⟨verify_identity_node env (initial_state ui meta), ?_, ?_⟩
  · simp only [run_agent, hval, if_true, after_verify_identity]
    have hv : (verify_identity_node env (initial_state ui meta)).is_verified
        = false := by
      simp [verify_identity_node, hb1, hb2, initial_state, hm]
    simp [route_next_step, hv]
  · simp [verify_identity_node, hb1, hb2, initial_state, hm, route_next_step]

/-- Claim C8 witness: the amended theorem applied to the concrete
identity-mismatch scenario. -/
theorem c8_witness :
    ∃ s : AgentState, run_agent envDemo "hello" metaMismatch = Except.ok s ∧
      s.status = some "IDENTITY_FAILED" ∧
      s.is_verified = false ∧
      route_next_step s = "blocked" ∧
      s.draft = none ∧
      s.draft_response = none ∧
      s.retrieved = false ∧
      ∃ f : FraudSignals, s.fraud = some f ∧ f.trust_score = none ∧
        f.red_flags = [] :=
  c8_blocked_run_amended envDemo "hello" metaMismatch (by decide) (by decide)
    (by decide) (by decide)

/-! Claim C9.  user_input is a required field, but no emptiness validation
exists anywhere: pydantic accepts the empty string and the workflow runs
normally on it. -/

/-- The empty-input mismatch run. -/
def c9_run : Except String AgentState := run_agent envDemo "" metaMismatch

/-- Claim C9 counterexample: invoking the workflow with empty user_input is
not surfaced as a validation failure — the initial state validates and the
run returns an ordinary blocked state; with a matching identity the gate
even verifies the session, so the workflow proceeds past the alleged
failing point. -/
theorem c9_counterexample :
    stateValid (initial_state "" metaMismatch) = true ∧
    c9_run.map AgentState.status = Except.ok (some "IDENTITY_FAILED") ∧
    (verify_identity_node envDemo (initial_state "" metaMatch0)).is_verified
        = true := by
  refine ⟨?_, rfl, rfl⟩
  decide

/-- Claim C9 (amended): user_input is declared required but non-emptiness
is never validated: an empty user_input passes state validation, and with a
configured, matching trusted identity the Identity Gate verifies the
session and the workflow proceeds past it. -/
theorem c9_empty_input_accepted_amended :
    (∀ meta : SessionMeta, 0 ≤ meta.address_drift_miles.getD 0 →
      stateValid (initial_state "" meta) = true) ∧
    (∀ (env : Env) (meta : SessionMeta),
      optBlank env.trusted_user_id = false →
      optBlank env.trusted_user_email = false →
      (meta.user_id == some (env.trusted_user_id.getD "") &&
        meta.email == some (env.trusted_user_email.getD "")) = true →
      (verify_identity_node env (initial_state "" meta)).is_verified = true ∧
      (verify_identity_node env (initial_state "" meta)).status
          = some "IDENTITY_VERIFIED") := by
  constructor
  · intro meta hd
    simp [stateValid, initial_state, hd]
  · intro env meta hb1 hb2 hm
    constructor <;> simp [verify_identity_node, hb1, hb2, initial_state, hm]

/-- Claim C9 witness: the amended theorem applied at the two concrete
sessions. -/
theorem c9_witness :
    stateValid (initial_state "" metaMismatch) = true ∧
    ((verify_identity_node envDemo (initial_state "" metaMatch0)).is_verified
        = true ∧
     (verify_identity_node envDemo (initial_state "" metaMatch0)).status
        = some "IDENTITY_VERIFIED") :=
  ⟨c9_empty_input_accepted_amended.1 metaMismatch (by decide),
   c9_empty_input_accepted_amended.2 envDemo metaMatch0 (by decide) (by decide)
     (by decide)⟩

/-! Claim C2.  The flag-review implication is not preserved by every node:
the Risk Scorer recomputes requires_human_review from the trust score and
the fraud composite's red_flags only, so it clears review while the flat
red_flags list stays non-empty whenever the composite carries no flags and
the score is at least 0.5. -/

/-- Verified state whose flat red_flags is non-empty with review required,
while the fraud composite (as run_agent initializes it) has no flags. -/
def c2_state : AgentState :=
  { initial_state "refund" metaMatch0 with
    is_verified := true, retrieved := true,
    red_flags := ["REFUND_VELOCITY_EXCEEDED"], requires_human_review := true,
    status := some "RED_FLAG_DETECTED" }

/-- Claim C2 counterexample: running the Risk Scorer on c2_state leaves its
non-empty red_flags in place but sets requires_human_review to false,
violating the claimed preservation of the implication by every node. -/
theorem c2_counterexample :
    c2_state.red_flags ≠ [] ∧
    c2_state.requires_human_review = true ∧
    (risk_scoring_node c2_state).red_flags ≠ [] ∧
    (risk_scoring_node c2_state).requires_human_review = false := by
  refine ⟨by simp [c2_state, initial_state], rfl, ?_, ?_⟩
  · simp [risk_scoring_node, c2_state, initial_state, metaMatch0]
  · simp [risk_scoring_node, c2_state, initial_state, metaMatch0]
    norm_num

/-- Claim C2 (amended): red_flags non-empty implies
requires_human_review == true after the Red-Flag Detector runs on a state
satisfying the implication (in particular on any state with empty
red_flags, which the detector enters with in the pipeline), and the
Identity Gate and the Red-Flag Detector both preserve the implication; the
Risk Scorer does not preserve it (it recomputes requires_human_review from
the trust score and the fraud composite's red_flags, clearing review while
the flat red_flags stays non-empty), and neither does the Human Review Gate
on an approve or edit decision. -/
theorem c2_flag_review_invariant_amended :
    (∀ (env : Env) (s : AgentState),
      (s.red_flags ≠ [] → s.requires_human_review = true) →
      ((verify_identity_node env s).red_flags ≠ [] →
        (verify_identity_node env s).requires_human_review = true)) ∧
    (∀ (env : Env) (s : AgentState),
      (s.red_flags ≠ [] → s.requires_human_review = true) →
      ((red_flag_checker_node env s).red_flags ≠ [] →
        (red_flag_checker_node env s).requires_human_review = true)) ∧
    (∀ (env : Env) (s : AgentState), s.red_flags = [] →
      ((red_flag_checker_node env s).red_flags ≠ [] →
        (red_flag_checker_node env s).requires_human_review = true)) := by
  refine ⟨?_, ?_, ?_⟩
  · intro env s h
    simp only [verify_identity_node]
    split_ifs <;> exact h
  · intro env s h
    simp only [red_flag_checker_node]
    split_ifs <;> intro hne <;> simp_all
  · intro env s h
    simp only [red_flag_checker_node]
    split_ifs <;> intro hne <;> simp_all

/-- Claim C2 witness: the amended preservation statements applied at
concrete states — the detector run on a flagged state that already requires
review, and on a clean state that trips the refund-velocity threshold. -/
theorem c2_witness :
    ((red_flag_checker_node envDemo c2_state).red_flags ≠ [] →
      (red_flag_checker_node envDemo c2_state).requires_human_review = true) ∧
    ((red_flag_checker_node envDemo (initial_state "refund" metaMatch5)).red_flags
        ≠ [] →
      (red_flag_checker_node envDemo
        (initial_state "refund" metaMatch5)).requires_human_review = true) ∧
    ((verify_identity_node envDemo c2_state).red_flags ≠ [] →
      (verify_identity_node envDemo c2_state).requires_human_review = true) :=
  ⟨c2_flag_review_invariant_amended.2.1 envDemo c2_state (fun _ => rfl),
   c2_flag_review_invariant_amended.2.2 envDemo (initial_state "refund" metaMatch5)
     rfl,
   c2_flag_review_invariant_amended.1 envDemo c2_state (fun _ => rfl)⟩

/-! Claim C3.  The Risk Scorer's review decision reads the fraud
composite's red_flags, not the state's flat red_flags field (which the
Red-Flag Detector is the one to populate), so the claimed equivalence with
the state's red_flags fails. -/

/-- State with a non-empty flat red_flags but an empty composite flag list,
and clean primitives (trust score 1.0). -/
def c3_state : AgentState :=
  { initial_state "return" metaMatch0 with
    is_verified := true, retrieved := true,
    red_flags := ["ADDRESS_DISTANCE_DISCREPANCY"], requires_human_review := true,
    status := some "RED_FLAG_DETECTED" }

/-- Claim C3 counterexample: after the Risk Scorer runs on c3_state the
trust score is 1.0 (not below 0.5) and the state's red_flags is non-empty,
yet requires_human_review is false and status is RISK_SCORED — refuting the
claimed equivalence with the state's red_flags. -/
theorem c3_counterexample :
    (risk_scoring_node c3_state).red_flags ≠ [] ∧
    (risk_scoring_node c3_state).requires_human_review = false ∧
    (risk_scoring_node c3_state).status = some "RISK_SCORED" := by
  refine ⟨?_, ?_, ?_⟩ <;>
    simp [risk_scoring_node, c3_state, initial_state, metaMatch0] <;> norm_num

/-- The Risk Scorer's review boolean holds exactly when the score is below
the threshold or the flag list is non-empty. -/
lemma review_bool_iff (t : ℚ) (l : List String) :
    (decide (t < 1/2) || !l.isEmpty) = true ↔ (t < 1/2 ∨ l ≠ []) := by
  cases l <;> simp

/-- The status written by the Risk Scorer equals HUMAN_REVIEW_REQUIRED
exactly when its review boolean is true. -/
lemma status_ite_iff (c : Bool) :
    (some (if c = true then "HUMAN_REVIEW_REQUIRED" else "RISK_SCORED") :
        Option String) = some "HUMAN_REVIEW_REQUIRED" ↔ c = true := by
  cases c <;> simp

/-- When the review boolean is false the Risk Scorer's status is
RISK_SCORED. -/
lemma status_ite_of_false (c : Bool) :
    c = false →
    (some (if c = true then "HUMAN_REVIEW_REQUIRED" else "RISK_SCORED") :
        Option String) = some "RISK_SCORED" := by
  cases c <;> simp

/-- Claim C3 (amended): after the Risk Scorer runs, requires_human_review
is true exactly when the computed trust score is below 0.5 or the fraud
composite's red_flags is non-empty, and the status is
HUMAN_REVIEW_REQUIRED exactly when review is required, RISK_SCORED
otherwise. -/
theorem c3_risk_review_amended (s : AgentState) :
    ∃ (f : FraudSignals) (t : ℚ),
      (risk_scoring_node s).fraud = some f ∧
      f.trust_score = some t ∧
      ((risk_scoring_node s).requires_human_review = true ↔
        (t < 1/2 ∨ f.red_flags ≠ [])) ∧
      ((risk_scoring_node s).status = some "HUMAN_REVIEW_REQUIRED" ↔
        (risk_scoring_node s).requires_human_review = true) ∧
      ((risk_scoring_node s).requires_human_review = false →
        (risk_scoring_node s).status = some "RISK_SCORED") := by
  cases hf : s.fraud with
  | none =>
    simp only [risk_scoring_node, hf]
    refine ⟨_, _, rfl, rfl, ?_, ?_, ?_⟩
    · simp
    · simp
    · simp
  | some f0 =>
    simp only [risk_scoring_node, hf]
    refine ⟨_, _, rfl, rfl, ?_, ?_, ?_⟩
    · exact review_bool_iff _ _
    · exact status_ite_iff _
    · exact status_ite_of_false _

/-! Claim C5.  The Risk Scorer's guarded computation (it skips a penalty
subtraction when the corresponding primitive is zero) coincides with the
spec formula for non-negative primitives, because each skipped penalty term
is zero there. -/

/-- For non-negative drift, the guarded score computation of the Risk
Scorer equals the spec formula spec_trust_score. -/
lemma trust_formula_eq (rc : Nat) (d : ℚ) (hd : 0 ≤ d) :
    max 0 (min 1 (if d > 0 then
        (if rc > 0 then 1 - min (3/10) ((5/100) * (rc : ℚ)) else 1)
          - min (3/10) (d / 1000)
      else
        (if rc > 0 then 1 - min (3/10) ((5/100) * (rc : ℚ)) else 1)))
    = spec_trust_score rc d := by
  have h1 : (if rc > 0 then (1:ℚ) - min (3/10) ((5/100) * (rc : ℚ)) else 1)
      = 1 - min (3/10) ((5/100) * (rc : ℚ)) := by
    by_cases h : rc > 0
    · simp [h]
    · have h0 : rc = 0 := Nat.eq_zero_of_not_pos h
      subst h0
      norm_num
  rw [h1]
  by_cases h : d > 0
  · simp only [h, if_true, spec_trust_score]
  · have hd0 : d = 0 := le_antisymm (not_lt.mp h) hd
    subst hd0
    simp only [spec_trust_score]
    norm_num

/-- Claim C5: for the non-negative primitives the Risk Scorer reads from
the fraud composite, the computed trust score equals exactly the spec
formula 1 - min(0.3, 0.05 rc) - min(0.3, d / 1000) clamped to [0,1]; the
formula's value always lies in [0,1]; and it is monotonically
non-increasing in the refund count and in the drift distance. -/
theorem c5_trust_score_formula :
    (∀ s : AgentState, 0 ≤ fraud_drift s →
      ∃ f : FraudSignals, (risk_scoring_node s).fraud = some f ∧
        f.trust_score =
          some (spec_trust_score (fraud_refund_count s) (fraud_drift s))) ∧
    (∀ (rc : Nat) (d : ℚ),
      0 ≤ spec_trust_score rc d ∧ spec_trust_score rc d ≤ 1) ∧
    (∀ (rc1 rc2 : Nat) (d1 d2 : ℚ), rc1 ≤ rc2 → d1 ≤ d2 →
      spec_trust_score rc2 d2 ≤ spec_trust_score rc1 d1) := by
  refine ⟨?_, ?_, ?_⟩
  · intro s hd
    cases hf : s.fraud with
    | none =>
      simp only [risk_scoring_node, hf]
      refine ⟨_, rfl, ?_⟩
      rw [show fraud_refund_count s = 0 from by simp [fraud_refund_count, hf],
          show fraud_drift s = 0 from by simp [fraud_drift, hf]]
      norm_num [spec_trust_score]
    | some f0 =>
      simp only [risk_scoring_node, hf]
      refine ⟨_, rfl, ?_⟩
      rw [show fraud_refund_count s = f0.refund_count from by
            simp [fraud_refund_count, hf],
          show fraud_drift s = f0.address_drift_miles from by
            simp [fraud_drift, hf]]
      have hd0 : 0 ≤ f0.address_drift_miles := by
        simpa [fraud_drift, hf] using hd
      exact congrArg some
        (trust_formula_eq f0.refund_count f0.address_drift_miles hd0)
  · intro rc d
    constructor
    · exact le_max_left 0 _
    · exact max_le (by norm_num) (min_le_left _ _)
  · intro rc1 rc2 d1 d2 h hd
    have hA : min ((3:ℚ)/10) ((5/100) * (rc1 : ℚ)) ≤
        min ((3:ℚ)/10) ((5/100) * (rc2 : ℚ)) := by
      refine min_le_min le_rfl ?_
      have hc : (rc1 : ℚ) ≤ (rc2 : ℚ) := Nat.cast_le.mpr h
      exact mul_le_mul_of_nonneg_left hc (by norm_num)
    have hB : min ((3:ℚ)/10) (d1 / 1000) ≤ min ((3:ℚ)/10) (d2 / 1000) := by
      refine min_le_min le_rfl ?_
      exact (div_le_div_iff_of_pos_right (by norm_num)).mpr hd
    unfold spec_trust_score
    refine max_le_max le_rfl (min_le_min le_rfl ?_)
    exact sub_le_sub (sub_le_sub_left hA 1) hB

/-- The matched-identity high-refund state entering the Risk Scorer. -/
def c5_state : AgentState :=
  { initial_state "refund" metaMatch5 with is_verified := true, retrieved := true }

/-- Claim C5 witness: the formula correspondence evaluated at the concrete
state whose fraud composite holds refund_count 5 and drift 0. -/
theorem c5_witness :
    ∃ f : FraudSignals, (risk_scoring_node c5_state).fraud = some f ∧
      f.trust_score = some (spec_trust_score (fraud_refund_count c5_state)
        (fraud_drift c5_state)) :=
  c5_trust_score_formula.1 c5_state
    (by simp [fraud_drift, c5_state, initial_state, metaMatch5])
